import Mathlib

/-!
Pexels API client (`main.go`): a shallow embedding and its properties

The client issues one authenticated HTTP GET per operation, stores the value of
the `X-Ratelimit-Remaining` response header in an `int32` field and decodes the
JSON body into a record.

The Go standard library and the network are the environment of the program:

* `strconv.Atoi`, `fmt.Sprintf` (verbs `%s`, `%d`) and the part of
  `encoding/json` that decodes into the program's record types are embedded as
  executable functions;
* the HTTP round trip, the URL parser behind `http.NewRequest`, the clock, the
  random generator and the float parser are fields of `Env`.

`int` is the 64-bit Go `int`; `int32` values are integers kept in
`[-2^31, 2^31)`.
-/

namespace Pexels

/-! ## Errors and outcomes -/

/-- The error values the program can return, one constructor per place an
`err != nil` comes from. -/
inductive Err where
  /-- The method or the URL was rejected by `http.NewRequest`. -/
  | newRequest (url : String)
  /-- The round trip of `http.Client.Do` failed. -/
  | transport (msg : String)
  /-- The `*strconv.NumError` of `strconv.Atoi` on the given header value. -/
  | atoi (s : String)
  /-- The read of the body by `ioutil.ReadAll` failed. -/
  | read
  /-- The `*json.SyntaxError`: the body is not a JSON text. -/
  | invalidJSON
  /-- The `*json.UnmarshalTypeError`: a JSON value does not fit the Go field. -/
  | unmarshalType (value : String) (goType : String)
deriving DecidableEq, Repr

/-- What a call of a Go function of type `(*T, error)` can do: return a value
with a nil error, return a nil value with an error, or abort in a run-time
fault (a Go `panic`). -/
inductive Outcome (α : Type) where
  | ok (a : α)
  | error (e : Err)
  | fault (msg : String)
deriving DecidableEq, Repr

deriving instance DecidableEq for Except

/-- An `Except` result seen as an outcome: such a call never faults. -/
def Outcome.ofExcept {α : Type} : Except Err α → Outcome α
  | .ok a => .ok a
  | .error e => .error e

/-! ## `strconv` -/

/-- Number of bits of the Go `int` (`strconv.IntSize` on a 64-bit platform). -/
def intSize : Nat := 64

/-- Value of an ASCII decimal digit. -/
def digitVal (c : Char) : Option Nat :=
  if '0' ≤ c ∧ c ≤ '9' then some (c.toNat - '0'.toNat) else none

/-- The digit loop of `strconv.ParseUint` in base 10, without the range check:
`acc` is the number read so far. -/
def parseDigits : List Char → Nat → Option Nat
  | [], acc => some acc
  | c :: cs, acc =>
    match digitVal c with
    | some d => parseDigits cs (acc * 10 + d)
    | none => none

/-- The function `strconv.ParseInt(s, 10, bitSize)`: an optional sign, then one or more
decimal digits, the value within the signed `bitSize`-bit range; `none` stands
for the `*NumError` (syntax or range). -/
def ParseInt (s : String) (bitSize : Nat) : Option Int :=
  let body (neg : Bool) (ds : List Char) : Option Int :=
    match ds with
    | [] => none
    | _ :: _ =>
      match parseDigits ds 0 with
      | none => none
      | some un =>
        if neg then
          if un ≤ 2 ^ (bitSize - 1) then some (-(un : Int)) else none
        else
          if un < 2 ^ (bitSize - 1) then some (un : Int) else none
  match s.data with
  | [] => none
  | c :: cs =>
    if c = '+' then body false cs
    else if c = '-' then body true cs
    else body false (c :: cs)

/-- The function `strconv.Atoi(s)`, which agrees with `ParseInt(s, 10, 0)` on every input. -/
def Atoi (s : String) : Except Err Int :=
  match ParseInt s intSize with
  | some n => .ok n
  | none => .error (.atoi s)

/-- The Go conversion `int32(n)`: `n` wrapped into `[-2^31, 2^31)`. -/
def toInt32 (n : Int) : Int :=
  (n + 2 ^ 31) % 2 ^ 32 - 2 ^ 31

/-- The value is representable as an `int32`. -/
def fitsInt32 (n : Int) : Prop :=
  -(2 : Int) ^ 31 ≤ n ∧ n < (2 : Int) ^ 31

instance (n : Int) : Decidable (fitsInt32 n) := by
  unfold fitsInt32; infer_instance

/-! ## `fmt.Sprintf` -/

/-- An operand of `fmt.Sprintf`. -/
inductive Arg where
  | str (s : String)
  | int (n : Int)
deriving DecidableEq, Repr

/-- Decimal text of an integer, as `%d` prints it: a `-` sign for a negative
number, no sign otherwise, no padding. -/
def decimal (n : Int) : String :=
  if n < 0 then "-" ++ Nat.repr n.natAbs else Nat.repr n.toNat

/-- The scanning loop of `fmt.Sprintf` over the format: text is copied, `%s`
prints a string operand verbatim, `%d` prints an integer operand in decimal and
`%%` prints a percent sign. These are the directives the program uses; any other
directive (or one whose operand is of the other kind or missing) is copied
unexpanded, where `fmt` would print a diagnostic. -/
def sprintfAux : List Char → List Arg → List Char
  | [], _ => []
  | [c], _ => [c]
  | c :: v :: fmt, args =>
    if c = '%' then
      if v = '%' then '%' :: sprintfAux fmt args
      else if v = 's' then
        match args with
        | .str s :: rest => s.data ++ sprintfAux fmt rest
        | _ => c :: v :: sprintfAux fmt args
      else if v = 'd' then
        match args with
        | .int n :: rest => (decimal n).data ++ sprintfAux fmt rest
        | _ => c :: v :: sprintfAux fmt args
      else c :: v :: sprintfAux fmt args
    else c :: sprintfAux (v :: fmt) args

/-- The function `fmt.Sprintf(format, args...)`, on the scanning loop above. -/
def Sprintf (format : String) (args : List Arg) : String :=
  String.mk (sprintfAux format.data args)

/-! ## JSON values and `encoding/json` -/

/-- A JSON value as `encoding/json` sees it after scanning: a number keeps the
text of its literal, an object keeps its members in the order written (a name
may occur twice). -/
inductive JValue where
  | null
  | bool (b : Bool)
  | num (lit : String)
  | str (s : String)
  | arr (items : List JValue)
  | obj (members : List (String × JValue))
deriving Repr

/-- The Go name of the kind of a JSON value, as used in `UnmarshalTypeError`. -/
def JValue.kind : JValue → String
  | .null => "null"
  | .bool _ => "bool"
  | .num lit => "number " ++ lit
  | .str _ => "string"
  | .arr _ => "array"
  | .obj _ => "object"

/-- The case folding `encoding/json` applies to a name before comparing it with
a field name: ASCII letters are upper-cased, and the two non-ASCII characters
whose simple case folding is an ASCII letter (the Kelvin sign and the long s)
are mapped to that letter. -/
def foldChar (c : Char) : Char :=
  if 'a' ≤ c ∧ c ≤ 'z' then Char.ofNat (c.toNat - 32)
  else if c.toNat = 0x212A then 'K'
  else if c.toNat = 0x17F then 'S'
  else c

/-- A member name selects the field tagged `field`: the names are equal up to
case folding. (No two fields of one record of the program have tags equal up to
folding, so the exact-match preference of the decoder never matters.) -/
def sameField (field key : String) : Bool :=
  field.data.map foldChar == key.data.map foldChar

/-- Decoding a JSON value into an `int32` field holding `old`. -/
def decodeInt32 (old : Int) : JValue → Except Err Int
  | .null => .ok old
  | .num lit =>
    match ParseInt lit 64 with
    | some n => if fitsInt32 n then .ok n else .error (.unmarshalType ("number " ++ lit) "int32")
    | none => .error (.unmarshalType ("number " ++ lit) "int32")
  | v => .error (.unmarshalType v.kind "int32")

/-- Decoding a JSON value into a `string` field holding `old`. -/
def decodeString (old : String) : JValue → Except Err String
  | .null => .ok old
  | .str s => .ok s
  | v => .error (.unmarshalType v.kind "string")

/-- A `float64`, kept as the decimal literal it was converted from (`"0"` for
the zero value); the rounding is not modelled. -/
structure Float64 where
  lit : String
deriving DecidableEq, Repr

/-- Decoding a JSON value into a `float64` field holding `old`; `inRange lit`
tells that `strconv.ParseFloat(lit, 64)` returns no range error. -/
def decodeFloat64 (inRange : String → Bool) (old : Float64) : JValue → Except Err Float64
  | .null => .ok old
  | .num lit =>
    if inRange lit then .ok ⟨lit⟩ else .error (.unmarshalType ("number " ++ lit) "float64")
  | v => .error (.unmarshalType v.kind "float64")

mutual
/-- The first number literal of a value, in document order, that
`strconv.ParseFloat` rejects. -/
def JValue.badNumber (inRange : String → Bool) : JValue → Option String
  | .num lit => if inRange lit then none else some lit
  | .arr items => JValue.badNumberList inRange items
  | .obj members => JValue.badNumberMembers inRange members
  | _ => none
/-- The search of `JValue.badNumber` through the items of an array. -/
def JValue.badNumberList (inRange : String → Bool) : List JValue → Option String
  | [] => none
  | v :: vs =>
    match JValue.badNumber inRange v with
    | some lit => some lit
    | none => JValue.badNumberList inRange vs
/-- The search of `JValue.badNumber` through the members of an object. -/
def JValue.badNumberMembers (inRange : String → Bool) : List (String × JValue) → Option String
  | [] => none
  | kv :: kvs =>
    match JValue.badNumber inRange kv.2 with
    | some lit => some lit
    | none => JValue.badNumberMembers inRange kvs
end

/-- Decoding a JSON value into an `interface{}` field: `null` gives the nil
interface, any other value its generic Go image, kept here as the JSON value it
is the image of. Every number in it is converted to `float64`. -/
def decodeInterface (inRange : String → Bool) (_old : Option JValue) : JValue → Except Err (Option JValue)
  | .null => .ok none
  | v =>
    match v.badNumber inRange with
    | some lit => .error (.unmarshalType ("number " ++ lit) "float64")
    | none => .ok (some v)

/-- The member loop of the decoder on an object: each member in turn is
decoded into the record by `set`, which picks the field the name selects. The
first error ends the decoding (the caller drops the record on any error). -/
def decodeMembers {α : Type} (set : α → String → JValue → Except Err α) :
    α → List (String × JValue) → Except Err α
  | a, [] => .ok a
  | a, kv :: kvs =>
    match set a kv.1 kv.2 with
    | .ok a1 => decodeMembers set a1 kvs
    | .error e => .error e

/-- Decoding a JSON value into a struct holding `old`: `null` leaves it as it
is, an object is decoded member by member, anything else is a type error. -/
def decodeStruct {α : Type} (goType : String) (set : α → String → JValue → Except Err α)
    (old : α) : JValue → Except Err α
  | .null => .ok old
  | .obj members => decodeMembers set old members
  | v => .error (.unmarshalType v.kind goType)

/-- The element loop of the decoder on an array: item `i` is decoded into
element `i` of the slice when the slice has one, into a zero element
otherwise; the result has one element per item. (A slice has elements before
the array is read only when the member name occurs a second time in the
object. Elements that an earlier occurrence left in the reserve of the slice,
beyond its length, are taken as zero.) -/
def decodeElems {α : Type} (dec : α → JValue → Except Err α) (zero : α) :
    List α → List JValue → Except Err (List α)
  | _, [] => .ok []
  | old, v :: vs =>
    match dec (old.headD zero) v with
    | .error e => .error e
    | .ok x =>
      match decodeElems dec zero old.tail vs with
      | .error e => .error e
      | .ok xs => .ok (x :: xs)

/-- Decoding a JSON value into a slice field holding `old`: `null` gives the
nil slice, an array is decoded item by item, anything else is a type error. -/
def decodeSlice {α : Type} (goType : String) (dec : α → JValue → Except Err α) (zero : α)
    (old : List α) : JValue → Except Err (List α)
  | .null => .ok []
  | .arr items => decodeElems dec zero old items
  | v => .error (.unmarshalType v.kind goType)

/-! ## The records of the program and their decoders -/

/-- Struct representing photo sources. -/
structure PhotoSource where
  Original : String := ""
  Large : String := ""
  Large2x : String := ""
  Medium : String := ""
  Small : String := ""
  Portrait : String := ""
  Square : String := ""
  Landscape : String := ""
  Tiny : String := ""
deriving DecidableEq, Repr

/-- Struct representing a photo. -/
structure Photo where
  ID : Int := 0
  Width : Int := 0
  Height : Int := 0
  Url : String := ""
  Photographer : String := ""
  PhotographerURL : String := ""
  Src : PhotoSource := {}
deriving DecidableEq, Repr

/-- Struct for search results of photos. -/
structure SearchResult where
  Page : Int := 0
  PerPage : Int := 0
  TotalResults : Int := 0
  NextPage : String := ""
  Photos : List Photo := []
deriving DecidableEq, Repr

/-- Struct for curated photo results. -/
structure CuratedResult where
  Page : Int := 0
  PerPage : Int := 0
  NextPage : String := ""
  Photos : List Photo := []
deriving DecidableEq, Repr

/-- Struct representing video files. -/
structure VideoFiles where
  ID : Int := 0
  Quality : String := ""
  FileType : String := ""
  Width : Int := 0
  Height : Int := 0
  Link : String := ""
deriving DecidableEq, Repr

/-- Struct representing video pictures. -/
structure VideoPicture where
  ID : Int := 0
  Picture : String := ""
  Nr : Int := 0
deriving DecidableEq, Repr

/-- Struct representing a video. -/
structure Video where
  ID : Int := 0
  Width : Int := 0
  Height : Int := 0
  Url : String := ""
  Image : String := ""
  FullRes : Option JValue := none
  Duration : Float64 := ⟨"0"⟩
  VideoFiles : List VideoFiles := []
  VideoPictures : List VideoPicture := []
deriving Repr

/-- Struct for search results of videos. -/
structure VideoSearchResult where
  Page : Int := 0
  PerPage : Int := 0
  TotalResults : Int := 0
  NextPage : String := ""
  Videos : List Video := []
deriving Repr

/-- Struct for popular video results. -/
structure PopularVideos where
  Page : Int := 0
  PerPage : Int := 0
  TotalResults : Int := 0
  Url : String := ""
  Videos : List Video := []
deriving Repr

/-- One member decoded into a `PhotoSource`, by the `json` tags of the struct. -/
def PhotoSource.setField (r : PhotoSource) (key : String) (v : JValue) : Except Err PhotoSource :=
  if sameField "original" key then (decodeString r.Original v).map (fun x => { r with Original := x })
  else if sameField "large" key then (decodeString r.Large v).map (fun x => { r with Large := x })
  else if sameField "large2x" key then (decodeString r.Large2x v).map (fun x => { r with Large2x := x })
  else if sameField "medium" key then (decodeString r.Medium v).map (fun x => { r with Medium := x })
  else if sameField "small" key then (decodeString r.Small v).map (fun x => { r with Small := x })
  else if sameField "portrait" key then (decodeString r.Portrait v).map (fun x => { r with Portrait := x })
  else if sameField "square" key then (decodeString r.Square v).map (fun x => { r with Square := x })
  else if sameField "landscape" key then (decodeString r.Landscape v).map (fun x => { r with Landscape := x })
  else if sameField "tiny" key then (decodeString r.Tiny v).map (fun x => { r with Tiny := x })
  else .ok r

/-- Decoding a JSON value into a `PhotoSource`. -/
def PhotoSource.decode : PhotoSource → JValue → Except Err PhotoSource :=
  decodeStruct "main.PhotoSource" PhotoSource.setField

/-- One member decoded into a `Photo`, by the `json` tags of the struct. -/
def Photo.setField (r : Photo) (key : String) (v : JValue) : Except Err Photo :=
  if sameField "id" key then (decodeInt32 r.ID v).map (fun x => { r with ID := x })
  else if sameField "width" key then (decodeInt32 r.Width v).map (fun x => { r with Width := x })
  else if sameField "height" key then (decodeInt32 r.Height v).map (fun x => { r with Height := x })
  else if sameField "url" key then (decodeString r.Url v).map (fun x => { r with Url := x })
  else if sameField "photographer" key then
    (decodeString r.Photographer v).map (fun x => { r with Photographer := x })
  else if sameField "photographer_url" key then
    (decodeString r.PhotographerURL v).map (fun x => { r with PhotographerURL := x })
  else if sameField "src" key then (PhotoSource.decode r.Src v).map (fun x => { r with Src := x })
  else .ok r

/-- Decoding a JSON value into a `Photo`. -/
def Photo.decode : Photo → JValue → Except Err Photo :=
  decodeStruct "main.Photo" Photo.setField

/-- The `json` tags of the fields of `Photo`. -/
def Photo.tags : List String :=
  ["id", "width", "height", "url", "photographer", "photographer_url", "src"]

/-- One member decoded into a `SearchResult`, by the `json` tags of the struct. -/
def SearchResult.setField (r : SearchResult) (key : String) (v : JValue) : Except Err SearchResult :=
  if sameField "page" key then (decodeInt32 r.Page v).map (fun x => { r with Page := x })
  else if sameField "per_page" key then (decodeInt32 r.PerPage v).map (fun x => { r with PerPage := x })
  else if sameField "total_results" key then
    (decodeInt32 r.TotalResults v).map (fun x => { r with TotalResults := x })
  else if sameField "next_page" key then (decodeString r.NextPage v).map (fun x => { r with NextPage := x })
  else if sameField "photos" key then
    (decodeSlice "[]main.Photo" Photo.decode {} r.Photos v).map (fun x => { r with Photos := x })
  else .ok r

/-- Decoding a JSON value into a `SearchResult`. -/
def SearchResult.decode : SearchResult → JValue → Except Err SearchResult :=
  decodeStruct "main.SearchResult" SearchResult.setField

/-- One member decoded into a `CuratedResult`, by the `json` tags of the struct. -/
def CuratedResult.setField (r : CuratedResult) (key : String) (v : JValue) : Except Err CuratedResult :=
  if sameField "page" key then (decodeInt32 r.Page v).map (fun x => { r with Page := x })
  else if sameField "per_page" key then (decodeInt32 r.PerPage v).map (fun x => { r with PerPage := x })
  else if sameField "next_page" key then (decodeString r.NextPage v).map (fun x => { r with NextPage := x })
  else if sameField "photos" key then
    (decodeSlice "[]main.Photo" Photo.decode {} r.Photos v).map (fun x => { r with Photos := x })
  else .ok r

/-- Decoding a JSON value into a `CuratedResult`. -/
def CuratedResult.decode : CuratedResult → JValue → Except Err CuratedResult :=
  decodeStruct "main.CuratedResult" CuratedResult.setField

/-- One member decoded into a `VideoFiles`, by the `json` tags of the struct. -/
def VideoFiles.setField (r : VideoFiles) (key : String) (v : JValue) : Except Err VideoFiles :=
  if sameField "id" key then (decodeInt32 r.ID v).map (fun x => { r with ID := x })
  else if sameField "quality" key then (decodeString r.Quality v).map (fun x => { r with Quality := x })
  else if sameField "file_type" key then (decodeString r.FileType v).map (fun x => { r with FileType := x })
  else if sameField "width" key then (decodeInt32 r.Width v).map (fun x => { r with Width := x })
  else if sameField "height" key then (decodeInt32 r.Height v).map (fun x => { r with Height := x })
  else if sameField "link" key then (decodeString r.Link v).map (fun x => { r with Link := x })
  else .ok r

/-- Decoding a JSON value into a `VideoFiles`. -/
def VideoFiles.decode : VideoFiles → JValue → Except Err VideoFiles :=
  decodeStruct "main.VideoFiles" VideoFiles.setField

/-- One member decoded into a `VideoPicture`, by the `json` tags of the struct. -/
def VideoPicture.setField (r : VideoPicture) (key : String) (v : JValue) : Except Err VideoPicture :=
  if sameField "id" key then (decodeInt32 r.ID v).map (fun x => { r with ID := x })
  else if sameField "picture" key then (decodeString r.Picture v).map (fun x => { r with Picture := x })
  else if sameField "nr" key then (decodeInt32 r.Nr v).map (fun x => { r with Nr := x })
  else .ok r

/-- Decoding a JSON value into a `VideoPicture`. -/
def VideoPicture.decode : VideoPicture → JValue → Except Err VideoPicture :=
  decodeStruct "main.VideoPicture" VideoPicture.setField

/-- One member decoded into a `Video`, by the `json` tags of the struct. -/
def Video.setField (inRange : String → Bool) (r : Video) (key : String) (v : JValue) :
    Except Err Video :=
  if sameField "id" key then (decodeInt32 r.ID v).map (fun x => { r with ID := x })
  else if sameField "width" key then (decodeInt32 r.Width v).map (fun x => { r with Width := x })
  else if sameField "height" key then (decodeInt32 r.Height v).map (fun x => { r with Height := x })
  else if sameField "url" key then (decodeString r.Url v).map (fun x => { r with Url := x })
  else if sameField "image" key then (decodeString r.Image v).map (fun x => { r with Image := x })
  else if sameField "full_res" key then
    (decodeInterface inRange r.FullRes v).map (fun x => { r with FullRes := x })
  else if sameField "duration" key then
    (decodeFloat64 inRange r.Duration v).map (fun x => { r with Duration := x })
  else if sameField "video_files" key then
    (decodeSlice "[]main.VideoFiles" VideoFiles.decode {} r.VideoFiles v).map
      (fun x => { r with VideoFiles := x })
  else if sameField "video_pictures" key then
    (decodeSlice "[]main.VideoPicture" VideoPicture.decode {} r.VideoPictures v).map
      (fun x => { r with VideoPictures := x })
  else .ok r

/-- Decoding a JSON value into a `Video`. -/
def Video.decode (inRange : String → Bool) : Video → JValue → Except Err Video :=
  decodeStruct "main.Video" (Video.setField inRange)

/-- One member decoded into a `VideoSearchResult`, by the `json` tags of the struct. -/
def VideoSearchResult.setField (inRange : String → Bool) (r : VideoSearchResult) (key : String)
    (v : JValue) : Except Err VideoSearchResult :=
  if sameField "page" key then (decodeInt32 r.Page v).map (fun x => { r with Page := x })
  else if sameField "per_page" key then (decodeInt32 r.PerPage v).map (fun x => { r with PerPage := x })
  else if sameField "total_results" key then
    (decodeInt32 r.TotalResults v).map (fun x => { r with TotalResults := x })
  else if sameField "next_page" key then (decodeString r.NextPage v).map (fun x => { r with NextPage := x })
  else if sameField "videos" key then
    (decodeSlice "[]main.Video" (Video.decode inRange) {} r.Videos v).map (fun x => { r with Videos := x })
  else .ok r

/-- Decoding a JSON value into a `VideoSearchResult`. -/
def VideoSearchResult.decode (inRange : String → Bool) :
    VideoSearchResult → JValue → Except Err VideoSearchResult :=
  decodeStruct "main.VideoSearchResult" (VideoSearchResult.setField inRange)

/-- One member decoded into a `PopularVideos`, by the `json` tags of the struct. -/
def PopularVideos.setField (inRange : String → Bool) (r : PopularVideos) (key : String)
    (v : JValue) : Except Err PopularVideos :=
  if sameField "page" key then (decodeInt32 r.Page v).map (fun x => { r with Page := x })
  else if sameField "per_page" key then (decodeInt32 r.PerPage v).map (fun x => { r with PerPage := x })
  else if sameField "total_results" key then
    (decodeInt32 r.TotalResults v).map (fun x => { r with TotalResults := x })
  else if sameField "url" key then (decodeString r.Url v).map (fun x => { r with Url := x })
  else if sameField "videos" key then
    (decodeSlice "[]main.Video" (Video.decode inRange) {} r.Videos v).map (fun x => { r with Videos := x })
  else .ok r

/-- Decoding a JSON value into a `PopularVideos`. -/
def PopularVideos.decode (inRange : String → Bool) :
    PopularVideos → JValue → Except Err PopularVideos :=
  decodeStruct "main.PopularVideos" (PopularVideos.setField inRange)

/-! ## The environment: HTTP, clock, random generator -/

/-- HTTP header lines, names in the canonical form `net/http` stores them in. -/
abbrev Header := List (String × String)

/-- The method `Header.Get(key)`: the first value stored under the name, `""` when there
is none. -/
def Header.Get (h : Header) (key : String) : String :=
  match h.find? (fun kv => kv.1 == key) with
  | some kv => kv.2
  | none => ""

/-- An `*http.Request` without body, as `http.NewRequest` makes it: the method,
the URL string it was made from, and the header lines. The `url.URL` inside the
Go request is the parse of that string; what of it goes on the wire (the part
after a `#` does not, reserved characters may be escaped) is a function of the
string and belongs to the round trip `Env.Do`. -/
structure Request where
  Method : String
  URL : String
  Header : Header := []
deriving DecidableEq, Repr

/-- The bytes of a response body: the text of a JSON value, or bytes that are
not a JSON text. -/
inductive Bytes where
  | json (v : JValue)
  | other (raw : String)
deriving Repr

/-- An `*http.Response`: the status code, the header, and what reading the body
to its end gives (`none` when the read fails). -/
structure Response where
  StatusCode : Nat
  Header : Header
  Body : Option Bytes
deriving Repr

/-- What the program takes from outside. -/
structure Env where
  /-- Whether `http.NewRequest(method, url, nil)` accepts the method and the URL. -/
  requestOk : String → String → Bool
  /-- The call `http.Client.Do(req)`: the response it returns (the last one
  when it follows redirects), of any status, or a transport error. -/
  Do : Request → Except String Response
  /-- The value of `time.Now().Unix()`. -/
  now : Int
  /-- The 31-bit value `math/rand` draws after `rand.Seed(seed)`. -/
  Int31 : Int → Nat
  /-- Whether `strconv.ParseFloat(lit, 64)` returns no range error. -/
  floatInRange : String → Bool

/-- The call `http.NewRequest(method, url, nil)`: the request made from the
method and the URL string, without header lines, or the error of the URL
parser. -/
def NewRequest (env : Env) (method url : String) : Except Err Request :=
  if env.requestOk method url then .ok { Method := method, URL := url } else .error (.newRequest url)

/-- The call `ioutil.ReadAll(res.Body)`. -/
def ReadAll (body : Option Bytes) : Except Err Bytes :=
  match body with
  | some data => .ok data
  | none => .error .read

/-- The call `json.Unmarshal(data, &result)` for a `result` holding `zero`, with the
decoder `dec` of its type: a syntax error when the bytes are not a JSON text,
the decoding of the value otherwise. -/
def Unmarshal {α : Type} (dec : α → JValue → Except Err α) (data : Bytes) (zero : α) : Except Err α :=
  match data with
  | .other _ => .error .invalidJSON
  | .json v => dec zero v

/-- The call `rand.Intn(n)` for `0 < n < 2^31`, from the 31-bit value `draw` the
generator delivers: `draw % n`. -/
def Intn (draw : Nat) (n : Nat) : Nat :=
  draw % n

/-! ## The client -/

/-- Constants for Pexels API endpoints. -/
def PhotoAPI : String := "https://api.pexels.com/v1/"

/-- The video root of the API. -/
def VideoAPI : String := "https://api.pexels.com/videos/"

/-- Struct representing a Pexels API client. The `HTTPClient` field is always
the zero `http.Client`, whose round trip is `Env.Do`. -/
structure Client where
  Token : String
  RemainingTimes : Int := 0
deriving DecidableEq, Repr

/-- The state the operations run in: the client behind the receiver pointer,
the requests handed to `http.Client.Do` so far, and the (method, URL) pairs the
program has called `http.NewRequest` with so far, both in order. -/
structure State where
  client : Client
  sent : List Request := []
  asked : List (String × String) := []
deriving DecidableEq, Repr

/-- Create a new Pexels API client with a given API token. -/
def NewClient (token : String) : Client :=
  { Token := token }

/-- Perform an HTTP request with authentication headers. -/
def requestDoWithAuth (env : Env) (st : State) (method url : String) :
    Except Err Response × State :=
  let st0 : State := { st with asked := st.asked ++ [(method, url)] }
  match NewRequest env method url with
  | .error err => (.error err, st0)
  | .ok req0 =>
    let req : Request := { req0 with Header := req0.Header ++ [("Authorization", st.client.Token)] }
    let st1 : State := { st0 with sent := st0.sent ++ [req] }
    match env.Do req with
    | .error msg => (.error (.transport msg), st1)
    | .ok res =>
      match Atoi (res.Header.Get "X-Ratelimit-Remaining") with
      | .error err => (.error err, st1)
      | .ok times =>
        (.ok res, { st1 with client := { st1.client with RemainingTimes := toInt32 times } })

/-- Search for photos based on a query, page, and perPage parameters. -/
def SearchPhotos (env : Env) (st : State) (query : String) (perPage page : Int) :
    Except Err SearchResult × State :=
  let url := Sprintf (PhotoAPI ++ "search?query=%s&per_page=%d&page=%d")
    [.str query, .int perPage, .int page]
  match requestDoWithAuth env st "GET" url with
  | (.error err, st1) => (.error err, st1)
  | (.ok res, st1) =>
    match ReadAll res.Body with
    | .error err => (.error err, st1)
    | .ok data =>
      match Unmarshal SearchResult.decode data {} with
      | .error err => (.error err, st1)
      | .ok result => (.ok result, st1)

/-- Retrieve curated photos based on page and perPage parameters. -/
def CuratedPhotos (env : Env) (st : State) (perPage page : Int) :
    Except Err CuratedResult × State :=
  let url := Sprintf (PhotoAPI ++ "curated?per_page=%d&page=%d") [.int perPage, .int page]
  match requestDoWithAuth env st "GET" url with
  | (.error err, st1) => (.error err, st1)
  | (.ok res, st1) =>
    match ReadAll res.Body with
    | .error err => (.error err, st1)
    | .ok data =>
      match Unmarshal CuratedResult.decode data {} with
      | .error err => (.error err, st1)
      | .ok result => (.ok result, st1)

/-- Retrieve photo information by ID. -/
def GetPhoto (env : Env) (st : State) (id : Int) : Except Err Photo × State :=
  let url := Sprintf (PhotoAPI ++ "photos/%d") [.int id]
  match requestDoWithAuth env st "GET" url with
  | (.error err, st1) => (.error err, st1)
  | (.ok res, st1) =>
    match ReadAll res.Body with
    | .error err => (.error err, st1)
    | .ok data =>
      match Unmarshal Photo.decode data {} with
      | .error err => (.error err, st1)
      | .ok result => (.ok result, st1)

/-- Get a random curated photo. -/
def GetRandomPhoto (env : Env) (st : State) : Outcome Photo × State :=
  let randNum := Intn (env.Int31 env.now) 1000
  match CuratedPhotos env st 1 randNum with
  | (.error err, st1) => (.error err, st1)
  | (.ok res, st1) =>
    match res.Photos with
    | photo :: _ => (.ok photo, st1)
    | [] => (.fault "index out of range [0] with length 0", st1)

/-- Search for videos based on a query, page, and perPage parameters. -/
def SearchVideo (env : Env) (st : State) (query : String) (perPage page : Int) :
    Except Err VideoSearchResult × State :=
  let url := Sprintf (VideoAPI ++ "search?query=%s&per_page=%d&page=%d")
    [.str query, .int perPage, .int page]
  match requestDoWithAuth env st "GET" url with
  | (.error err, st1) => (.error err, st1)
  | (.ok res, st1) =>
    match ReadAll res.Body with
    | .error err => (.error err, st1)
    | .ok data =>
      match Unmarshal (VideoSearchResult.decode env.floatInRange) data {} with
      | .error err => (.error err, st1)
      | .ok result => (.ok result, st1)

/-- Retrieve popular videos based on page and perPage parameters. -/
def PopularVideo (env : Env) (st : State) (perPage page : Int) :
    Except Err PopularVideos × State :=
  let url := Sprintf (VideoAPI ++ "popular?per_page=%d&page=%d") [.int perPage, .int page]
  match requestDoWithAuth env st "GET" url with
  | (.error err, st1) => (.error err, st1)
  | (.ok res, st1) =>
    match ReadAll res.Body with
    | .error err => (.error err, st1)
    | .ok data =>
      match Unmarshal (PopularVideos.decode env.floatInRange) data {} with
      | .error err => (.error err, st1)
      | .ok result => (.ok result, st1)

/-- Get a random popular video. -/
def GetRandomVideo (env : Env) (st : State) : Outcome Video × State :=
  let randNum := Intn (env.Int31 env.now) 1000
  match PopularVideo env st 1 randNum with
  | (.error err, st1) => (.error err, st1)
  | (.ok res, st1) =>
    match res.Videos with
    | video :: _ => (.ok video, st1)
    | [] => (.fault "index out of range [0] with length 0", st1)

/-- Get the remaining API requests available for this month. -/
def GetRemainingRequestsInThisMonth (c : Client) : Int :=
  c.RemainingTimes

/-! ## The public request operations as one family -/

/-- A call of one of the seven public request operations, with its arguments. -/
inductive Call where
  | searchPhotos (query : String) (perPage page : Int)
  | curatedPhotos (perPage page : Int)
  | getPhoto (id : Int)
  | getRandomPhoto
  | searchVideo (query : String) (perPage page : Int)
  | popularVideo (perPage page : Int)
  | getRandomVideo
deriving DecidableEq, Repr

/-- The record a call returns. -/
inductive Reply where
  | searchResult (r : SearchResult)
  | curatedResult (r : CuratedResult)
  | photo (r : Photo)
  | videoSearchResult (r : VideoSearchResult)
  | popularVideos (r : PopularVideos)
  | video (r : Video)
deriving Repr

/-- The outcome of an operation with its record wrapped as a `Reply`. -/
def Outcome.reply {α : Type} (wrap : α → Reply) : Outcome α → Outcome Reply
  | .ok a => .ok (wrap a)
  | .error e => .error e
  | .fault msg => .fault msg

/-- Running a call: the operation it names, on its arguments. -/
def Call.run (env : Env) (st : State) : Call → Outcome Reply × State
  | .searchPhotos query perPage page =>
    let r := SearchPhotos env st query perPage page
    ((Outcome.ofExcept r.1).reply .searchResult, r.2)
  | .curatedPhotos perPage page =>
    let r := CuratedPhotos env st perPage page
    ((Outcome.ofExcept r.1).reply .curatedResult, r.2)
  | .getPhoto id =>
    let r := GetPhoto env st id
    ((Outcome.ofExcept r.1).reply .photo, r.2)
  | .getRandomPhoto =>
    let r := GetRandomPhoto env st
    (r.1.reply .photo, r.2)
  | .searchVideo query perPage page =>
    let r := SearchVideo env st query perPage page
    ((Outcome.ofExcept r.1).reply .videoSearchResult, r.2)
  | .popularVideo perPage page =>
    let r := PopularVideo env st perPage page
    ((Outcome.ofExcept r.1).reply .popularVideos, r.2)
  | .getRandomVideo =>
    let r := GetRandomVideo env st
    (r.1.reply .video, r.2)

/-- An environment whose server answers every request with `res`, whatever the
URL, and whose other parts are fixed: every URL is accepted, the clock reads
`now`, the generator draws `draw`, every float literal is in range. -/
def Env.fixed (res : Response) (now : Int) (draw : Nat) : Env :=
  { requestOk := fun _ _ => true
    Do := fun _ => .ok res
    now := now
    Int31 := fun _ => draw
    floatInRange := fun _ => true }

/-- The common body of the five operations that send a request: the request
to `url`, then the body read and unmarshalled with the decoder of the result
type. Each of them is this function at its URL and decoder. -/
def fetch {α : Type} (env : Env) (st : State) (url : String)
    (dec : α → JValue → Except Err α) (zero : α) : Except Err α × State :=
  match requestDoWithAuth env st "GET" url with
  | (.error err, st1) => (.error err, st1)
  | (.ok res, st1) =>
    match ReadAll res.Body with
    | .error err => (.error err, st1)
    | .ok data =>
      match Unmarshal dec data zero with
      | .error err => (.error err, st1)
      | .ok result => (.ok result, st1)

/-- Reading a body and unmarshalling it with `dec`, as every operation does
with the response it got. -/
def readAndDecode {α : Type} (dec : α → JValue → Except Err α) (zero : α)
    (body : Option Bytes) : Except Err α :=
  match ReadAll body with
  | .error err => .error err
  | .ok data => Unmarshal dec data zero

/-- The request an operation sends for `url` with the token of the client. -/
def authRequest (token url : String) : Request :=
  { Method := "GET", URL := url, Header := [("Authorization", token)] }

/-- The URL a call requests. -/
def Call.url (env : Env) : Call → String
  | .searchPhotos query perPage page =>
    Sprintf (PhotoAPI ++ "search?query=%s&per_page=%d&page=%d") [.str query, .int perPage, .int page]
  | .curatedPhotos perPage page =>
    Sprintf (PhotoAPI ++ "curated?per_page=%d&page=%d") [.int perPage, .int page]
  | .getPhoto id => Sprintf (PhotoAPI ++ "photos/%d") [.int id]
  | .getRandomPhoto =>
    Sprintf (PhotoAPI ++ "curated?per_page=%d&page=%d")
      [.int 1, .int (Intn (env.Int31 env.now) 1000 : Nat)]
  | .searchVideo query perPage page =>
    Sprintf (VideoAPI ++ "search?query=%s&per_page=%d&page=%d") [.str query, .int perPage, .int page]
  | .popularVideo perPage page =>
    Sprintf (VideoAPI ++ "popular?per_page=%d&page=%d") [.int perPage, .int page]
  | .getRandomVideo =>
    Sprintf (VideoAPI ++ "popular?per_page=%d&page=%d")
      [.int 1, .int (Intn (env.Int31 env.now) 1000 : Nat)]

/-- The first element of a slice as the random operations take it: a fault on
an empty slice. -/
def firstOf {α : Type} : List α → Outcome α
  | a :: _ => .ok a
  | [] => .fault "index out of range [0] with length 0"

/-- What a call makes of the body of the response it received: the body read
and unmarshalled into the record type of the operation, and for the random
operations the first element taken. -/
def Call.finish (env : Env) (body : Option Bytes) : Call → Outcome Reply
  | .searchPhotos _ _ _ =>
    (Outcome.ofExcept (readAndDecode SearchResult.decode {} body)).reply .searchResult
  | .curatedPhotos _ _ =>
    (Outcome.ofExcept (readAndDecode CuratedResult.decode {} body)).reply .curatedResult
  | .getPhoto _ => (Outcome.ofExcept (readAndDecode Photo.decode {} body)).reply .photo
  | .getRandomPhoto =>
    match readAndDecode CuratedResult.decode {} body with
    | .error err => .error err
    | .ok res => (firstOf res.Photos).reply .photo
  | .searchVideo _ _ _ =>
    (Outcome.ofExcept (readAndDecode (VideoSearchResult.decode env.floatInRange) {} body)).reply
      .videoSearchResult
  | .popularVideo _ _ =>
    (Outcome.ofExcept (readAndDecode (PopularVideos.decode env.floatInRange) {} body)).reply
      .popularVideos
  | .getRandomVideo =>
    match readAndDecode (PopularVideos.decode env.floatInRange) {} body with
    | .error err => .error err
    | .ok res => (firstOf res.Videos).reply .video

/-- The error of a result, if it is one. -/
def errorOf {α : Type} : Except Err α → Option Err
  | .error e => some e
  | .ok _ => none

/-- The error, if any, of reading the body and unmarshalling it into the record
type the call decodes into. -/
def Call.bodyError (env : Env) (body : Option Bytes) : Call → Option Err
  | .searchPhotos _ _ _ => errorOf (readAndDecode SearchResult.decode {} body)
  | .curatedPhotos _ _ => errorOf (readAndDecode CuratedResult.decode {} body)
  | .getPhoto _ => errorOf (readAndDecode Photo.decode {} body)
  | .getRandomPhoto => errorOf (readAndDecode CuratedResult.decode {} body)
  | .searchVideo _ _ _ => errorOf (readAndDecode (VideoSearchResult.decode env.floatInRange) {} body)
  | .popularVideo _ _ => errorOf (readAndDecode (PopularVideos.decode env.floatInRange) {} body)
  | .getRandomVideo => errorOf (readAndDecode (PopularVideos.decode env.floatInRange) {} body)

/-! ## Concrete inputs -/

/-- A state with a client fresh from `NewClient` and nothing sent yet. -/
def freshState : State :=
  { client := NewClient "k" }

/-- A 200 response with quota header `42` and the photo `{"id":1}`. -/
def photoResponse : Response :=
  { StatusCode := 200
    Header := [("Content-Type", "application/json"), ("X-Ratelimit-Remaining", "42")]
    Body := some (.json (.obj [("id", .num "1")])) }

/-- A 200 response whose quota header `4294967296` is `2^32`, with the photo
`{"id":1}`. -/
def bigQuotaResponse : Response :=
  { StatusCode := 200
    Header := [("X-Ratelimit-Remaining", "4294967296")]
    Body := some (.json (.obj [("id", .num "1")])) }

/-- A 200 response without the quota header. -/
def noQuotaResponse : Response :=
  { StatusCode := 200
    Header := [("Content-Type", "application/json")]
    Body := some (.json (.obj [("id", .num "1")])) }

/-- A 500 response with a valid quota header and the well-formed photo
`{"id":7,"url":"u"}`. -/
def serverErrorResponse : Response :=
  { StatusCode := 500
    Header := [("X-Ratelimit-Remaining", "100")]
    Body := some (.json (.obj [("id", .num "7"), ("url", .str "u")])) }

/-- A response whose quota header is `2^32` and whose body is not JSON. -/
def bigQuotaGarbageResponse : Response :=
  { StatusCode := 200
    Header := [("X-Ratelimit-Remaining", "4294967296")]
    Body := some (.other "<html>") }

/-- A response with quota header `7` whose body is not JSON. -/
def garbageResponse : Response :=
  { StatusCode := 200
    Header := [("X-Ratelimit-Remaining", "7")]
    Body := some (.other "<html>") }

/-- A curated page holding two photos, `{"page":567,"per_page":1,"photos":[{"id":11},{"id":12}]}`,
with quota header `5`. -/
def twoPhotosResponse : Response :=
  { StatusCode := 200
    Header := [("X-Ratelimit-Remaining", "5")]
    Body := some (.json (.obj [("page", .num "567"), ("per_page", .num "1"),
      ("photos", .arr [.obj [("id", .num "11")], .obj [("id", .num "12")]])])) }

/-- A popular page holding one video,
`{"page":567,"per_page":1,"videos":[{"id":21,"duration":12.5}]}`, with quota header `5`. -/
def oneVideoResponse : Response :=
  { StatusCode := 200
    Header := [("X-Ratelimit-Remaining", "5")]
    Body := some (.json (.obj [("page", .num "567"), ("per_page", .num "1"),
      ("videos", .arr [.obj [("id", .num "21"), ("duration", .num "12.5")]])])) }

/-- A page past the end of the feed: `{"page":567,"per_page":1,"photos":[],"videos":[]}`,
with quota header `5`. -/
def emptyPageResponse : Response :=
  { StatusCode := 200
    Header := [("X-Ratelimit-Remaining", "5")]
    Body := some (.json (.obj [("page", .num "567"), ("per_page", .num "1"),
      ("photos", .arr []), ("videos", .arr [])])) }

/-- A page without the sequence at all: `{"page":567,"per_page":1}`, with quota
header `5`. -/
def noItemsResponse : Response :=
  { StatusCode := 200
    Header := [("X-Ratelimit-Remaining", "5")]
    Body := some (.json (.obj [("page", .num "567"), ("per_page", .num "1")])) }

/-- The answer of the API for a photo that does not exist: status 404, a valid
quota header and the error body `{"status":404,"error":"Not Found"}`. -/
def notFoundResponse : Response :=
  { StatusCode := 404
    Header := [("X-Ratelimit-Remaining", "100")]
    Body := some (.json (.obj [("status", .num "404"), ("error", .str "Not Found")])) }

end Pexels

namespace Pexels

/-! ## Lemmas on the request path -/

theorem toInt32_of_fits (n : Int) (h : fitsInt32 n) : toInt32 n = n := by
  unfold fitsInt32 at h
  unfold toInt32
  omega

theorem SearchPhotos_eq_fetch (env : Env) (st : State) (query : String) (perPage page : Int) :
    SearchPhotos env st query perPage page =
      fetch env st (Sprintf (PhotoAPI ++ "search?query=%s&per_page=%d&page=%d")
        [.str query, .int perPage, .int page]) SearchResult.decode {} := by
  unfold SearchPhotos fetch
  dsimp only
  rcases requestDoWithAuth env st "GET" _ with ⟨_ | res, st1⟩
  · rfl
  · dsimp only
    cases ReadAll res.Body with
    | error err => rfl
    | ok data =>
      dsimp only
      cases Unmarshal _ data _ <;> rfl

theorem CuratedPhotos_eq_fetch (env : Env) (st : State) (perPage page : Int) :
    CuratedPhotos env st perPage page =
      fetch env st (Sprintf (PhotoAPI ++ "curated?per_page=%d&page=%d") [.int perPage, .int page])
        CuratedResult.decode {} := by
  unfold CuratedPhotos fetch
  dsimp only
  rcases requestDoWithAuth env st "GET" _ with ⟨_ | res, st1⟩
  · rfl
  · dsimp only
    cases ReadAll res.Body with
    | error err => rfl
    | ok data =>
      dsimp only
      cases Unmarshal _ data _ <;> rfl

theorem GetPhoto_eq_fetch (env : Env) (st : State) (id : Int) :
    GetPhoto env st id =
      fetch env st (Sprintf (PhotoAPI ++ "photos/%d") [.int id]) Photo.decode {} := by
  unfold GetPhoto fetch
  dsimp only
  rcases requestDoWithAuth env st "GET" _ with ⟨_ | res, st1⟩
  · rfl
  · dsimp only
    cases ReadAll res.Body with
    | error err => rfl
    | ok data =>
      dsimp only
      cases Unmarshal _ data _ <;> rfl

theorem SearchVideo_eq_fetch (env : Env) (st : State) (query : String) (perPage page : Int) :
    SearchVideo env st query perPage page =
      fetch env st (Sprintf (VideoAPI ++ "search?query=%s&per_page=%d&page=%d")
        [.str query, .int perPage, .int page]) (VideoSearchResult.decode env.floatInRange) {} := by
  unfold SearchVideo fetch
  dsimp only
  rcases requestDoWithAuth env st "GET" _ with ⟨_ | res, st1⟩
  · rfl
  · dsimp only
    cases ReadAll res.Body with
    | error err => rfl
    | ok data =>
      dsimp only
      cases Unmarshal _ data _ <;> rfl

theorem PopularVideo_eq_fetch (env : Env) (st : State) (perPage page : Int) :
    PopularVideo env st perPage page =
      fetch env st (Sprintf (VideoAPI ++ "popular?per_page=%d&page=%d") [.int perPage, .int page])
        (PopularVideos.decode env.floatInRange) {} := by
  unfold PopularVideo fetch
  dsimp only
  rcases requestDoWithAuth env st "GET" _ with ⟨_ | res, st1⟩
  · rfl
  · dsimp only
    cases ReadAll res.Body with
    | error err => rfl
    | ok data =>
      dsimp only
      cases Unmarshal _ data _ <;> rfl

/-- The request path spelled out: what `fetch` returns, by the stage at which
it ends. -/
theorem fetch_eq {α : Type} (env : Env) (st : State) (url : String)
    (dec : α → JValue → Except Err α) (zero : α) :
    fetch env st url dec zero =
      if env.requestOk "GET" url = true then
        match env.Do (authRequest st.client.Token url) with
        | .error msg =>
          (.error (.transport msg),
            { st with
              sent := st.sent ++ [authRequest st.client.Token url]
              asked := st.asked ++ [("GET", url)] })
        | .ok res =>
          match Atoi (res.Header.Get "X-Ratelimit-Remaining") with
          | .error err =>
            (.error err,
              { st with
                sent := st.sent ++ [authRequest st.client.Token url]
                asked := st.asked ++ [("GET", url)] })
          | .ok times =>
            (readAndDecode dec zero res.Body,
              { client := { st.client with RemainingTimes := toInt32 times }
                sent := st.sent ++ [authRequest st.client.Token url]
                asked := st.asked ++ [("GET", url)] })
      else (.error (.newRequest url), { st with asked := st.asked ++ [("GET", url)] }) := by
  unfold fetch requestDoWithAuth NewRequest readAndDecode authRequest
  by_cases hreq : env.requestOk "GET" url = true
  · simp only [hreq, if_true, List.nil_append]
    cases hdo : env.Do { Method := "GET", URL := url, Header := [("Authorization", st.client.Token)] } with
    | error msg => rfl
    | ok res =>
      simp only []
      cases hat : Atoi (res.Header.Get "X-Ratelimit-Remaining") with
      | error err => rfl
      | ok times =>
        simp only []
        cases hrd : ReadAll res.Body with
        | error err => rfl
        | ok data =>
          simp only []
          cases hun : Unmarshal dec data zero with
          | error err => rfl
          | ok result => rfl
  · simp only [hreq]
    rfl

/-- The request path of a call spelled out: what `Call.run` returns, by the
stage at which the path ends. -/
theorem Call.run_eq (env : Env) (st : State) (call : Call) :
    call.run env st =
      if env.requestOk "GET" (call.url env) = true then
        match env.Do (authRequest st.client.Token (call.url env)) with
        | .error msg =>
          (.error (.transport msg),
            { st with
              sent := st.sent ++ [authRequest st.client.Token (call.url env)]
              asked := st.asked ++ [("GET", call.url env)] })
        | .ok res =>
          match Atoi (res.Header.Get "X-Ratelimit-Remaining") with
          | .error err =>
            (.error err,
              { st with
                sent := st.sent ++ [authRequest st.client.Token (call.url env)]
                asked := st.asked ++ [("GET", call.url env)] })
          | .ok times =>
            (call.finish env res.Body,
              { client := { st.client with RemainingTimes := toInt32 times }
                sent := st.sent ++ [authRequest st.client.Token (call.url env)]
                asked := st.asked ++ [("GET", call.url env)] })
      else (.error (.newRequest (call.url env)),
        { st with asked := st.asked ++ [("GET", call.url env)] }) := by
  cases call with
  | searchPhotos query perPage page =>
    simp only [Call.run, Call.url, Call.finish, SearchPhotos_eq_fetch, fetch_eq]
    split
    · split
      · rfl
      · split <;> rfl
    · rfl
  | curatedPhotos perPage page =>
    simp only [Call.run, Call.url, Call.finish, CuratedPhotos_eq_fetch, fetch_eq]
    split
    · split
      · rfl
      · split <;> rfl
    · rfl
  | getPhoto id =>
    simp only [Call.run, Call.url, Call.finish, GetPhoto_eq_fetch, fetch_eq]
    split
    · split
      · rfl
      · split <;> rfl
    · rfl
  | searchVideo query perPage page =>
    simp only [Call.run, Call.url, Call.finish, SearchVideo_eq_fetch, fetch_eq]
    split
    · split
      · rfl
      · split <;> rfl
    · rfl
  | popularVideo perPage page =>
    simp only [Call.run, Call.url, Call.finish, PopularVideo_eq_fetch, fetch_eq]
    split
    · split
      · rfl
      · split <;> rfl
    · rfl
  | getRandomPhoto =>
    simp only [Call.run, Call.url, Call.finish, GetRandomPhoto, CuratedPhotos_eq_fetch, fetch_eq]
    generalize Sprintf (PhotoAPI ++ "curated?per_page=%d&page=%d") _ = url
    by_cases hreq : env.requestOk "GET" url = true
    · simp only [hreq, if_true]
      cases env.Do (authRequest st.client.Token url) with
      | error msg => rfl
      | ok res =>
        dsimp only
        cases Atoi (res.Header.Get "X-Ratelimit-Remaining") with
        | error err => rfl
        | ok times =>
          dsimp only
          cases readAndDecode CuratedResult.decode {} res.Body with
          | error err => rfl
          | ok r => cases hp : r.Photos <;> simp [hp, firstOf, Outcome.reply]
    · simp only [hreq]
      rfl
  | getRandomVideo =>
    simp only [Call.run, Call.url, Call.finish, GetRandomVideo, PopularVideo_eq_fetch, fetch_eq]
    generalize Sprintf (VideoAPI ++ "popular?per_page=%d&page=%d") _ = url
    by_cases hreq : env.requestOk "GET" url = true
    · simp only [hreq, if_true]
      cases env.Do (authRequest st.client.Token url) with
      | error msg => rfl
      | ok res =>
        dsimp only
        cases Atoi (res.Header.Get "X-Ratelimit-Remaining") with
        | error err => rfl
        | ok times =>
          dsimp only
          cases readAndDecode (PopularVideos.decode env.floatInRange) {} res.Body with
          | error err => rfl
          | ok r => cases hp : r.Videos <;> simp [hp, firstOf, Outcome.reply]
    · simp only [hreq]
      rfl

theorem Header.Get_of_absent (h : Header) (key : String)
    (habs : ∀ kv ∈ h, kv.1 ≠ key) : Header.Get h key = "" := by
  unfold Header.Get
  have hnone : h.find? (fun kv => kv.1 == key) = none := by
    rw [List.find?_eq_none]
    intro kv hkv
    simpa using habs kv hkv
  rw [hnone]

theorem Atoi_error_of_bad (h : Header)
    (hBad : (∀ kv ∈ h, kv.1 ≠ "X-Ratelimit-Remaining") ∨
      ParseInt (h.Get "X-Ratelimit-Remaining") intSize = none) :
    Atoi (h.Get "X-Ratelimit-Remaining") = .error (.atoi (h.Get "X-Ratelimit-Remaining")) := by
  rcases hBad with habs | hnone
  · rw [Header.Get_of_absent h _ habs]
    decide
  · unfold Atoi
    rw [hnone]

/-- What a call returns when the server answers with `res` and the header
parses as `n`, the request having been accepted. -/
theorem Call.run_of_header_ok (env : Env) (st : State) (call : Call) (res : Response) (n : Int)
    (hReq : env.requestOk "GET" (call.url env) = true)
    (hDo : ∀ req, env.Do req = .ok res)
    (hN : Atoi (res.Header.Get "X-Ratelimit-Remaining") = .ok n) :
    call.run env st =
      (call.finish env res.Body,
        { client := { st.client with RemainingTimes := toInt32 n }
          sent := st.sent ++ [authRequest st.client.Token (call.url env)]
          asked := st.asked ++ [("GET", call.url env)] }) := by
  rw [Call.run_eq, if_pos hReq, hDo]
  dsimp only
  rw [hN]

/-- What a call returns when the server answers with `res` and the header does
not parse, the request having been accepted. -/
theorem Call.run_of_header_error (env : Env) (st : State) (call : Call) (res : Response) (e : Err)
    (hReq : env.requestOk "GET" (call.url env) = true)
    (hDo : ∀ req, env.Do req = .ok res)
    (hE : Atoi (res.Header.Get "X-Ratelimit-Remaining") = .error e) :
    call.run env st =
      (.error e,
        { st with
          sent := st.sent ++ [authRequest st.client.Token (call.url env)]
          asked := st.asked ++ [("GET", call.url env)] }) := by
  rw [Call.run_eq, if_pos hReq, hDo]
  dsimp only
  rw [hE]

/-- What a call returns when `http.NewRequest` rejects its URL. -/
theorem Call.run_of_rejected (env : Env) (st : State) (call : Call)
    (hReq : ¬ env.requestOk "GET" (call.url env) = true) :
    call.run env st =
      (.error (.newRequest (call.url env)),
        { st with asked := st.asked ++ [("GET", call.url env)] }) := by
  rw [Call.run_eq, if_neg hReq]

theorem Call.finish_of_bodyError (env : Env) (body : Option Bytes) (call : Call) (e : Err)
    (h : call.bodyError env body = some e) : call.finish env body = .error e := by
  cases call <;> simp only [Call.bodyError, Call.finish] at h ⊢
  all_goals
    revert h
    cases readAndDecode _ _ body with
    | error err => intro h; simp only [errorOf, Option.some.injEq] at h; subst h; rfl
    | ok r => intro h; simp [errorOf] at h

theorem sprintfAux_cons_of_ne (c : Char) (fmt : List Char) (args : List Arg) (h : c ≠ '%') :
    sprintfAux (c :: fmt) args = c :: sprintfAux fmt args := by
  cases fmt with
  | nil => simp [sprintfAux]
  | cons v fmt => simp [sprintfAux, h]

theorem sprintfAux_text (lit fmt : List Char) (args : List Arg) (h : '%' ∉ lit) :
    sprintfAux (lit ++ fmt) args = lit ++ sprintfAux fmt args := by
  induction lit with
  | nil => rfl
  | cons c lit ih =>
    have hc : c ≠ '%' := fun hc => h (by simp [hc])
    have hl : '%' ∉ lit := fun hl => h (by simp [hl])
    rw [List.cons_append, sprintfAux_cons_of_ne _ _ _ hc, ih hl, List.cons_append]

/-- The search URL: the root, then the query verbatim and the two numbers in
decimal. -/
theorem Sprintf_search (root query : String) (perPage page : Int) (h : '%' ∉ root.data) :
    Sprintf (root ++ "search?query=%s&per_page=%d&page=%d") [.str query, .int perPage, .int page]
      = root ++ "search?query=" ++ query ++ "&per_page=" ++ decimal perPage ++ "&page="
          ++ decimal page := by
  apply String.ext
  simp only [Sprintf, String.data_append]
  rw [sprintfAux_text _ _ _ h]
  simp [sprintfAux]

/-- The URL of a feed (`curated` or `popular`) under a root. -/
theorem Sprintf_feed (root feed : String) (perPage page : Int) (h : '%' ∉ root.data)
    (hf : '%' ∉ feed.data) :
    Sprintf (root ++ feed ++ "?per_page=%d&page=%d") [.int perPage, .int page]
      = root ++ feed ++ "?per_page=" ++ decimal perPage ++ "&page=" ++ decimal page := by
  apply String.ext
  simp only [Sprintf, String.data_append, List.append_assoc]
  rw [sprintfAux_text _ _ _ h, sprintfAux_text _ _ _ hf]
  simp [sprintfAux]

theorem fetch_sent {α : Type} (env : Env) (st : State) (url : String)
    (dec : α → JValue → Except Err α) (zero : α) :
    (fetch env st url dec zero).2.sent =
      st.sent ++ (if env.requestOk "GET" url = true then
        [{ Method := "GET", URL := url, Header := [("Authorization", st.client.Token)] }]
      else []) := by
  rw [fetch_eq]
  by_cases h : env.requestOk "GET" url = true
  · rw [if_pos h, if_pos h]
    cases env.Do (authRequest st.client.Token url) with
    | error msg => rfl
    | ok res =>
      dsimp only
      cases Atoi (res.Header.Get "X-Ratelimit-Remaining") <;> rfl
  · rw [if_neg h, if_neg h]
    simp

theorem fetch_asked {α : Type} (env : Env) (st : State) (url : String)
    (dec : α → JValue → Except Err α) (zero : α) :
    (fetch env st url dec zero).2.asked = st.asked ++ [("GET", url)] := by
  rw [fetch_eq]
  by_cases h : env.requestOk "GET" url = true
  · rw [if_pos h]
    cases env.Do (authRequest st.client.Token url) with
    | error msg => rfl
    | ok res =>
      dsimp only
      cases Atoi (res.Header.Get "X-Ratelimit-Remaining") <;> rfl
  · rw [if_neg h]

/-- The decimal text `%d` prints is the standard decimal text of the integer. -/
theorem decimal_eq_toString (n : Int) : decimal n = toString n := by
  cases n with
  | ofNat m =>
    have h : ¬ ((m : Int) < 0) := by omega
    simp only [decimal, Int.ofNat_eq_coe, h, if_false, Int.toNat_ofNat]
    rfl
  | negSucc m =>
    have h : Int.negSucc m < 0 := Int.negSucc_lt_zero m
    simp only [decimal, h, if_true]
    rfl

theorem fetch_congr {α : Type} (env env2 : Env) (st : State) (url : String)
    (dec : α → JValue → Except Err α) (zero : α)
    (hReq : env2.requestOk = env.requestOk) (hDo : env2.Do = env.Do) :
    fetch env2 st url dec zero = fetch env st url dec zero := by
  rw [fetch_eq, fetch_eq, hReq, hDo]

theorem curated_url (n : Nat) :
    Sprintf (PhotoAPI ++ "curated?per_page=%d&page=%d") [.int 1, .int (n : Int)]
      = "https://api.pexels.com/v1/curated?per_page=1&page=" ++ decimal n := by
  have hfmt : PhotoAPI ++ "curated?per_page=%d&page=%d"
      = PhotoAPI ++ "curated" ++ "?per_page=%d&page=%d" := by decide
  rw [hfmt, Sprintf_feed _ _ _ _ (by decide) (by decide)]
  rfl

theorem popular_url (n : Nat) :
    Sprintf (VideoAPI ++ "popular?per_page=%d&page=%d") [.int 1, .int (n : Int)]
      = "https://api.pexels.com/videos/popular?per_page=1&page=" ++ decimal n := by
  have hfmt : VideoAPI ++ "popular?per_page=%d&page=%d"
      = VideoAPI ++ "popular" ++ "?per_page=%d&page=%d" := by decide
  rw [hfmt, Sprintf_feed _ _ _ _ (by decide) (by decide)]
  rfl

theorem GetRandomPhoto_eq (env : Env) (st : State) :
    GetRandomPhoto env st =
      (match (CuratedPhotos env st 1 (Intn (env.Int31 env.now) 1000 : Nat)).1 with
        | .error err => .error err
        | .ok res => firstOf res.Photos,
        (CuratedPhotos env st 1 (Intn (env.Int31 env.now) 1000 : Nat)).2) := by
  unfold GetRandomPhoto
  dsimp only
  rcases CuratedPhotos env st 1 (Intn (env.Int31 env.now) 1000 : Nat) with ⟨_ | res, st1⟩
  · rfl
  · dsimp only
    cases res.Photos <;> rfl

theorem GetRandomVideo_eq (env : Env) (st : State) :
    GetRandomVideo env st =
      (match (PopularVideo env st 1 (Intn (env.Int31 env.now) 1000 : Nat)).1 with
        | .error err => .error err
        | .ok res => firstOf res.Videos,
        (PopularVideo env st 1 (Intn (env.Int31 env.now) 1000 : Nat)).2) := by
  unfold GetRandomVideo
  dsimp only
  rcases PopularVideo env st 1 (Intn (env.Int31 env.now) 1000 : Nat) with ⟨_ | res, st1⟩
  · rfl
  · dsimp only
    cases res.Videos <;> rfl

/-! ## Lemmas on the decoders -/

theorem decodeMembers_cons {α : Type} (set : α → String → JValue → Except Err α) (a : α)
    (kv : String × JValue) (kvs : List (String × JValue)) :
    decodeMembers set a (kv :: kvs) =
      match set a kv.1 kv.2 with
      | .ok a1 => decodeMembers set a1 kvs
      | .error e => .error e := rfl

theorem decodeMembers_of_skip {α : Type} (set : α → String → JValue → Except Err α) (a : α)
    (members : List (String × JValue)) (h : ∀ kv ∈ members, set a kv.1 kv.2 = .ok a) :
    decodeMembers set a members = .ok a := by
  induction members with
  | nil => rfl
  | cons kv kvs ih =>
    unfold decodeMembers
    rw [h kv (List.mem_cons_self _ _)]
    exact ih (fun kv1 hkv1 => h kv1 (List.mem_cons_of_mem _ hkv1))

theorem decodeMembers_append {α : Type} (set : α → String → JValue → Except Err α) (a : α)
    (xs ys : List (String × JValue)) :
    decodeMembers set a (xs ++ ys) =
      match decodeMembers set a xs with
      | .ok a1 => decodeMembers set a1 ys
      | .error e => .error e := by
  induction xs generalizing a with
  | nil => rfl
  | cons kv kvs ih =>
    rw [List.cons_append, decodeMembers_cons, decodeMembers_cons]
    cases set a kv.1 kv.2 with
    | error e => rfl
    | ok a1 => exact ih a1

theorem decodeElems_length {α : Type} (dec : α → JValue → Except Err α) (zero : α)
    (old : List α) (items : List JValue) (xs : List α)
    (h : decodeElems dec zero old items = .ok xs) : xs.length = items.length := by
  induction items generalizing old xs with
  | nil =>
    unfold decodeElems at h
    cases h
    rfl
  | cons v vs ih =>
    unfold decodeElems at h
    cases hd : dec (old.headD zero) v with
    | error e => rw [hd] at h; cases h
    | ok x =>
      rw [hd] at h
      dsimp only at h
      cases ht : decodeElems dec zero old.tail vs with
      | error e => rw [ht] at h; cases h
      | ok ys =>
        rw [ht] at h
        cases h
        rw [List.length_cons, List.length_cons, ih old.tail ys ht]

theorem Photo.setField_of_no_tag (r : Photo) (key : String) (v : JValue)
    (h : ∀ tag ∈ Photo.tags, sameField tag key = false) : Photo.setField r key v = .ok r := by
  simp only [Photo.tags, List.mem_cons, List.mem_singleton, forall_eq_or_imp, forall_eq,
    List.not_mem_nil, false_implies, implies_true, and_true] at h
  obtain ⟨h1, h2, h3, h4, h5, h6, h7⟩ := h
  simp [Photo.setField, h1, h2, h3, h4, h5, h6, h7]

theorem sameField_eq_of_same (tag other key : String) (h : sameField tag key = true) :
    sameField other key = sameField other tag := by
  unfold sameField at h ⊢
  rw [← eq_of_beq h]

theorem CuratedResult.setField_photos (r r1 : CuratedResult) (key : String)
    (items : List JValue) (hKey : sameField "photos" key = true)
    (h : CuratedResult.setField r key (.arr items) = .ok r1) :
    r1.Photos.length = items.length := by
  have h1 : sameField "page" key = false := by
    rw [sameField_eq_of_same _ _ _ hKey]; decide
  have h2 : sameField "per_page" key = false := by
    rw [sameField_eq_of_same _ _ _ hKey]; decide
  have h3 : sameField "next_page" key = false := by
    rw [sameField_eq_of_same _ _ _ hKey]; decide
  simp only [CuratedResult.setField, h1, h2, h3, hKey, decodeSlice, if_true, Bool.false_eq_true,
    if_false] at h
  cases hd : decodeElems Photo.decode {} r.Photos items with
  | error e => rw [hd] at h; cases h
  | ok xs =>
    rw [hd] at h
    cases h
    exact decodeElems_length _ _ _ _ _ hd

theorem CuratedResult.setField_other (r r1 : CuratedResult) (key : String) (v : JValue)
    (hKey : sameField "photos" key = false) (h : CuratedResult.setField r key v = .ok r1) :
    r1.Photos = r.Photos := by
  unfold CuratedResult.setField at h
  rw [hKey] at h
  split at h
  · cases hd : decodeInt32 r.Page v <;> rw [hd] at h <;> cases h
    rfl
  · split at h
    · cases hd : decodeInt32 r.PerPage v <;> rw [hd] at h <;> cases h
      rfl
    · split at h
      · cases hd : decodeString r.NextPage v <;> rw [hd] at h <;> cases h
        rfl
      · simp only [Bool.false_eq_true, if_false] at h
        cases h
        rfl

theorem CuratedResult.decodeMembers_other (r r1 : CuratedResult)
    (members : List (String × JValue))
    (hKeys : ∀ kv ∈ members, sameField "photos" kv.1 = false)
    (h : decodeMembers CuratedResult.setField r members = .ok r1) :
    r1.Photos = r.Photos := by
  induction members generalizing r with
  | nil =>
    unfold decodeMembers at h
    cases h
    rfl
  | cons kv kvs ih =>
    unfold decodeMembers at h
    cases hs : CuratedResult.setField r kv.1 kv.2 with
    | error e => rw [hs] at h; cases h
    | ok r2 =>
      rw [hs] at h
      rw [ih r2 (fun kv1 hkv1 => hKeys kv1 (List.mem_cons_of_mem _ hkv1)) h]
      exact CuratedResult.setField_other r r2 kv.1 kv.2 (hKeys kv (List.mem_cons_self _ _)) hs

/-! ## The claims -/

/-- C1 (as stated, refuted): a call that succeeds on a response whose header
carries `4294967296` leaves the counter at `0`, not at the header's value. -/
theorem quota_exact_counterexample :
    Atoi (bigQuotaResponse.Header.Get "X-Ratelimit-Remaining") = .ok 4294967296 ∧
    (Call.run (Env.fixed bigQuotaResponse 0 0) freshState (.getPhoto 1)).1
      = .ok (.photo { ID := 1 }) ∧
    GetRemainingRequestsInThisMonth
      (Call.run (Env.fixed bigQuotaResponse 0 0) freshState (.getPhoto 1)).2.client = 0 ∧
    GetRemainingRequestsInThisMonth
      (Call.run (Env.fixed bigQuotaResponse 0 0) freshState (.getPhoto 1)).2.client ≠ 4294967296 := by
  refine ⟨by decide, rfl, by decide, by decide⟩

/-- C1 (amended): a client fresh from `NewClient` reports 0 remaining requests;
after any public request operation that returns successfully on a response
whose quota header parses as `n`, `GetRemainingRequestsInThisMonth` returns `n`
converted to `int32`, which is `n` itself whenever `n` fits in 32 bits. -/
theorem remaining_after_success (env : Env) (st st1 : State) (call : Call) (res : Response)
    (n : Int) (reply : Reply)
    (hDo : ∀ req, env.Do req = .ok res)
    (hN : Atoi (res.Header.Get "X-Ratelimit-Remaining") = .ok n)
    (hRun : call.run env st = (.ok reply, st1)) :
    (∀ token, GetRemainingRequestsInThisMonth (NewClient token) = 0) ∧
    GetRemainingRequestsInThisMonth st1.client = toInt32 n ∧
    (fitsInt32 n → GetRemainingRequestsInThisMonth st1.client = n) := by
  have hst : st1.client.RemainingTimes = toInt32 n := by
    by_cases hReq : env.requestOk "GET" (call.url env) = true
    · rw [Call.run_of_header_ok env st call res n hReq hDo hN] at hRun
      rw [← (Prod.mk.inj hRun).2]
    · rw [Call.run_of_rejected env st call hReq] at hRun
      cases (Prod.mk.inj hRun).1
  refine ⟨fun _ => rfl, hst, fun hfit => ?_⟩
  show st1.client.RemainingTimes = n
  rw [hst, toInt32_of_fits n hfit]

/-- C1 (witness): `GetPhoto` on a response with quota header `42`. -/
theorem remaining_after_success_witness :
    (∀ req, (Env.fixed photoResponse 0 0).Do req = .ok photoResponse) ∧
    Atoi (photoResponse.Header.Get "X-Ratelimit-Remaining") = .ok 42 ∧
    GetRemainingRequestsInThisMonth
      (Call.run (Env.fixed photoResponse 0 0) freshState (.getPhoto 1)).2.client = 42 :=
  ⟨fun _ => rfl, by decide,
    (remaining_after_success (Env.fixed photoResponse 0 0) freshState
      (Call.run (Env.fixed photoResponse 0 0) freshState (.getPhoto 1)).2 (.getPhoto 1)
      photoResponse 42 (.photo { ID := 1 }) (fun _ => rfl) (by decide) rfl).2.2 (by decide)⟩

/-- C2: when the response has no `X-Ratelimit-Remaining` header, or one that
`strconv.Atoi` does not accept, every public request operation returns an
error and no record, and the quota counter of the client keeps the value it had
before the call. -/
theorem bad_header_fails (env : Env) (st : State) (call : Call) (res : Response)
    (hDo : ∀ req, env.Do req = .ok res)
    (hBad : (∀ kv ∈ res.Header, kv.1 ≠ "X-Ratelimit-Remaining") ∨
      ParseInt (res.Header.Get "X-Ratelimit-Remaining") intSize = none) :
    (∃ e, (call.run env st).1 = .error e) ∧
    (call.run env st).2.client = st.client ∧
    GetRemainingRequestsInThisMonth (call.run env st).2.client
      = GetRemainingRequestsInThisMonth st.client := by
  have hE := Atoi_error_of_bad res.Header hBad
  by_cases hReq : env.requestOk "GET" (call.url env) = true
  · rw [Call.run_of_header_error env st call res _ hReq hDo hE]
    exact ⟨⟨_, rfl⟩, rfl, rfl⟩
  · rw [Call.run_of_rejected env st call hReq]
    exact ⟨⟨_, rfl⟩, rfl, rfl⟩

/-- C2 (witness): `CuratedPhotos` on a response without the quota header. -/
theorem bad_header_fails_witness :
    (∀ req, (Env.fixed noQuotaResponse 0 0).Do req = .ok noQuotaResponse) ∧
    (∀ kv ∈ noQuotaResponse.Header, kv.1 ≠ "X-Ratelimit-Remaining") ∧
    (∃ e, (Call.run (Env.fixed noQuotaResponse 0 0) freshState (.curatedPhotos 1 1)).1
      = .error e) ∧
    (Call.run (Env.fixed noQuotaResponse 0 0) freshState (.curatedPhotos 1 1)).2.client
      = freshState.client :=
  have h := bad_header_fails (Env.fixed noQuotaResponse 0 0) freshState (.curatedPhotos 1 1)
    noQuotaResponse (fun _ => rfl) (Or.inl (by decide))
  ⟨fun _ => rfl, by decide, h.1, h.2.1⟩

/-- C4 (as stated, refuted): construction on the empty token does not fail;
it yields a client holding the empty token. -/
theorem new_client_empty_token_counterexample :
    ∃ c : Client, NewClient "" = c ∧ c.Token = "" ∧ c.RemainingTimes = 0 :=
  ⟨NewClient "", rfl, rfl, rfl⟩

/-- C4 (amended): for every token, the empty one included, `NewClient` yields a
client holding exactly that token with quota 0; construction never fails. -/
theorem new_client_holds_token (token : String) :
    (NewClient token).Token = token ∧
    (NewClient token).RemainingTimes = 0 ∧
    GetRemainingRequestsInThisMonth (NewClient token) = 0 :=
  ⟨rfl, rfl, rfl⟩

/-- C5 (as stated, refuted): on a 500 response with a valid quota header and a
well-formed photo body, `GetPhoto` returns the decoded photo and no error. -/
theorem non_2xx_counterexample :
    serverErrorResponse.StatusCode = 500 ∧
    ¬ (200 ≤ serverErrorResponse.StatusCode ∧ serverErrorResponse.StatusCode < 300) ∧
    (Call.run (Env.fixed serverErrorResponse 0 0) freshState (.getPhoto 7)).1
      = .ok (.photo { ID := 7, Url := "u" }) :=
  ⟨rfl, by decide, rfl⟩

/-- C5 (amended): for every public request operation and every response that
`http.Client.Do` returns with a status that is not 2xx: when the request is
accepted, the response carries a valid `X-Ratelimit-Remaining` header `n` and
its body unmarshals into the record type of the operation, `SearchPhotos`,
`CuratedPhotos`, `GetPhoto`, `SearchVideo` and `PopularVideo` return that
decoded record with a nil error, `GetRandomPhoto` and `GetRandomVideo` return
the first element of the decoded page when it holds one, and every one of the
seven leaves the quota counter at `n` converted to `int32`. -/
theorem non_2xx_returns_record (env : Env) (st : State) (res : Response) (n : Int) (data : Bytes)
    (hStatus : ¬ (200 ≤ res.StatusCode ∧ res.StatusCode < 300))
    (hReq : ∀ m u, env.requestOk m u = true)
    (hDo : ∀ req, env.Do req = .ok res)
    (hN : Atoi (res.Header.Get "X-Ratelimit-Remaining") = .ok n)
    (hBody : res.Body = some data) :
    (∀ q perPage page r, Unmarshal SearchResult.decode data {} = .ok r →
      (SearchPhotos env st q perPage page).1 = .ok r) ∧
    (∀ perPage page r, Unmarshal CuratedResult.decode data {} = .ok r →
      (CuratedPhotos env st perPage page).1 = .ok r) ∧
    (∀ id r, Unmarshal Photo.decode data {} = .ok r → (GetPhoto env st id).1 = .ok r) ∧
    (∀ q perPage page r, Unmarshal (VideoSearchResult.decode env.floatInRange) data {} = .ok r →
      (SearchVideo env st q perPage page).1 = .ok r) ∧
    (∀ perPage page r, Unmarshal (PopularVideos.decode env.floatInRange) data {} = .ok r →
      (PopularVideo env st perPage page).1 = .ok r) ∧
    (∀ r photo rest, Unmarshal CuratedResult.decode data {} = .ok r →
      r.Photos = photo :: rest → (GetRandomPhoto env st).1 = .ok photo) ∧
    (∀ r video rest, Unmarshal (PopularVideos.decode env.floatInRange) data {} = .ok r →
      r.Videos = video :: rest → (GetRandomVideo env st).1 = .ok video) ∧
    (∀ call : Call,
      GetRemainingRequestsInThisMonth (call.run env st).2.client = toInt32 n) := by
  have _ := hStatus
  have hfetch : ∀ {α : Type} (url : String) (dec : α → JValue → Except Err α) (zero r : α),
      Unmarshal dec data zero = .ok r → (fetch env st url dec zero).1 = .ok r := by
    intro α url dec zero r hr
    rw [fetch_eq, if_pos (hReq _ _), hDo]
    dsimp only
    rw [hN]
    dsimp only
    rw [hBody]
    simp only [readAndDecode, ReadAll]
    exact hr
  refine ⟨?_, ?_, ?_, ?_, ?_, ?_, ?_, ?_⟩
  · intro q perPage page r hr
    rw [SearchPhotos_eq_fetch]
    exact hfetch _ _ _ _ hr
  · intro perPage page r hr
    rw [CuratedPhotos_eq_fetch]
    exact hfetch _ _ _ _ hr
  · intro id r hr
    rw [GetPhoto_eq_fetch]
    exact hfetch _ _ _ _ hr
  · intro q perPage page r hr
    rw [SearchVideo_eq_fetch]
    exact hfetch _ _ _ _ hr
  · intro perPage page r hr
    rw [PopularVideo_eq_fetch]
    exact hfetch _ _ _ _ hr
  · intro r photo rest hr hph
    rw [GetRandomPhoto_eq]
    dsimp only
    rw [CuratedPhotos_eq_fetch, hfetch _ _ _ _ hr]
    dsimp only
    rw [hph]
    rfl
  · intro r video rest hr hv
    rw [GetRandomVideo_eq]
    dsimp only
    rw [PopularVideo_eq_fetch, hfetch _ _ _ _ hr]
    dsimp only
    rw [hv]
    rfl
  · intro call
    rw [Call.run_of_header_ok env st call res n (hReq _ _) hDo hN]
    rfl

/-- C5 (witness): `GetPhoto(7)` answered with status 500, quota header `100` and
the photo `{"id":7,"url":"u"}`. -/
theorem non_2xx_returns_record_witness :
    ¬ (200 ≤ serverErrorResponse.StatusCode ∧ serverErrorResponse.StatusCode < 300) ∧
    (∀ m u, (Env.fixed serverErrorResponse 0 0).requestOk m u = true) ∧
    (∀ req, (Env.fixed serverErrorResponse 0 0).Do req = .ok serverErrorResponse) ∧
    Atoi (serverErrorResponse.Header.Get "X-Ratelimit-Remaining") = .ok 100 ∧
    (GetPhoto (Env.fixed serverErrorResponse 0 0) freshState 7).1 = .ok { ID := 7, Url := "u" } ∧
    GetRemainingRequestsInThisMonth
      (Call.run (Env.fixed serverErrorResponse 0 0) freshState (.getPhoto 7)).2.client = 100 :=
  have h := non_2xx_returns_record (Env.fixed serverErrorResponse 0 0) freshState
    serverErrorResponse 100 (.json (.obj [("id", .num "7"), ("url", .str "u")]))
    (by decide) (fun _ _ => rfl) (fun _ => rfl) (by decide) rfl
  ⟨by decide, fun _ _ => rfl, fun _ => rfl, by decide,
    h.2.2.1 7 { ID := 7, Url := "u" } rfl, h.2.2.2.2.2.2.2 (.getPhoto 7)⟩

/-- C10 (as stated, refuted): the header parses as `4294967296` and the body is
not JSON; the call fails, but the counter holds `0`, not the header's value,
and so is equal to what it was before the call. -/
theorem quota_on_failure_counterexample :
    Atoi (bigQuotaGarbageResponse.Header.Get "X-Ratelimit-Remaining") = .ok 4294967296 ∧
    (Call.run (Env.fixed bigQuotaGarbageResponse 0 0) freshState (.searchPhotos "nature" 15 1)).1
      = .error .invalidJSON ∧
    (Call.run (Env.fixed bigQuotaGarbageResponse 0 0) freshState
      (.searchPhotos "nature" 15 1)).2.client.RemainingTimes = 0 ∧
    (Call.run (Env.fixed bigQuotaGarbageResponse 0 0) freshState
      (.searchPhotos "nature" 15 1)).2.client.RemainingTimes ≠ 4294967296 ∧
    (Call.run (Env.fixed bigQuotaGarbageResponse 0 0) freshState
      (.searchPhotos "nature" 15 1)).2.client = freshState.client := by
  refine ⟨by decide, rfl, by decide, by decide, by decide⟩

/-- C10 (amended): a failing call is not atomic with respect to the quota
counter. If the request is accepted, the transport succeeds and the header
parses as `n`, but reading or unmarshalling the body fails with `e`, the call
returns `e` with no record and the counter has been overwritten with `n`
converted to `int32` (`n` itself when it fits in 32 bits). When the request is
rejected, the transport fails or the header does not parse, the call returns an
error and the client is as it was. -/
theorem quota_on_failure (env : Env) (st : State) (call : Call) :
    (∀ res n e, (∀ m u, env.requestOk m u = true) → (∀ req, env.Do req = .ok res) →
      Atoi (res.Header.Get "X-Ratelimit-Remaining") = .ok n →
      call.bodyError env res.Body = some e →
        (call.run env st).1 = .error e ∧
        (call.run env st).2.client = { st.client with RemainingTimes := toInt32 n } ∧
        (fitsInt32 n → (call.run env st).2.client.RemainingTimes = n)) ∧
    ((∀ m u, env.requestOk m u = false) →
      (∃ e, (call.run env st).1 = .error e) ∧ (call.run env st).2.client = st.client) ∧
    (∀ msg, (∀ req, env.Do req = .error msg) →
      (∃ e, (call.run env st).1 = .error e) ∧ (call.run env st).2.client = st.client) ∧
    (∀ res e, (∀ req, env.Do req = .ok res) →
      Atoi (res.Header.Get "X-Ratelimit-Remaining") = .error e →
      (∃ e1, (call.run env st).1 = .error e1) ∧ (call.run env st).2.client = st.client) := by
  refine ⟨?_, ?_, ?_, ?_⟩
  · intro res n e hReq hDo hN hBody
    rw [Call.run_of_header_ok env st call res n (hReq _ _) hDo hN]
    refine ⟨Call.finish_of_bodyError env res.Body call e hBody, rfl, fun hfit => ?_⟩
    exact toInt32_of_fits n hfit
  · intro hReq
    have h : ¬ env.requestOk "GET" (call.url env) = true := by
      rw [hReq]; exact Bool.false_ne_true
    rw [Call.run_of_rejected env st call h]
    exact ⟨⟨_, rfl⟩, rfl⟩
  · intro msg hDo
    by_cases hReq : env.requestOk "GET" (call.url env) = true
    · rw [Call.run_eq, if_pos hReq, hDo]
      exact ⟨⟨_, rfl⟩, rfl⟩
    · rw [Call.run_of_rejected env st call hReq]
      exact ⟨⟨_, rfl⟩, rfl⟩
  · intro res e hDo hE
    by_cases hReq : env.requestOk "GET" (call.url env) = true
    · rw [Call.run_of_header_error env st call res e hReq hDo hE]
      exact ⟨⟨_, rfl⟩, rfl⟩
    · rw [Call.run_of_rejected env st call hReq]
      exact ⟨⟨_, rfl⟩, rfl⟩

/-- C10 (witness): `SearchPhotos` on a response with quota header `7` and a body
that is not JSON, from a client whose counter was 0. -/
theorem quota_on_failure_witness :
    (∀ m u, (Env.fixed garbageResponse 0 0).requestOk m u = true) ∧
    (∀ req, (Env.fixed garbageResponse 0 0).Do req = .ok garbageResponse) ∧
    Atoi (garbageResponse.Header.Get "X-Ratelimit-Remaining") = .ok 7 ∧
    (Call.searchPhotos "nature" 15 1).bodyError (Env.fixed garbageResponse 0 0)
      garbageResponse.Body = some .invalidJSON ∧
    (Call.run (Env.fixed garbageResponse 0 0) freshState (.searchPhotos "nature" 15 1)).1
      = .error .invalidJSON ∧
    (Call.run (Env.fixed garbageResponse 0 0) freshState
      (.searchPhotos "nature" 15 1)).2.client.RemainingTimes = 7 :=
  have h := (quota_on_failure (Env.fixed garbageResponse 0 0) freshState
    (.searchPhotos "nature" 15 1)).1 garbageResponse 7 .invalidJSON
    (fun _ _ => rfl) (fun _ => rfl) (by decide) (by decide)
  ⟨fun _ _ => rfl, fun _ => rfl, by decide, by decide, h.1, h.2.2 (by decide)⟩

/-- C7: the URL `SearchPhotos` requests, the string it has `http.NewRequest`
called with, is the photo root followed by `search?query=`, the query verbatim,
`&per_page=`, perPage in decimal, `&page=` and page in decimal, for every query
(reserved characters included, nothing escaped) and all integers; `SearchVideo`
builds the same on the video root. The decimal text is that of the standard
`toString` on integers; two instances spell it out: `nature`, 15, 1 and
`a&b #c`, -3, 0. -/
theorem search_url_verbatim (env : Env) (st : State) (q : String) (perPage page : Int) :
    (SearchPhotos env st q perPage page).2.asked =
      st.asked ++ [("GET", "https://api.pexels.com/v1/search?query=" ++ q ++ "&per_page="
        ++ toString perPage ++ "&page=" ++ toString page)] ∧
    (SearchVideo env st q perPage page).2.asked =
      st.asked ++ [("GET", "https://api.pexels.com/videos/search?query=" ++ q ++ "&per_page="
        ++ toString perPage ++ "&page=" ++ toString page)] ∧
    (SearchPhotos env st "nature" 15 1).2.asked =
      st.asked ++ [("GET", "https://api.pexels.com/v1/search?query=nature&per_page=15&page=1")] ∧
    (SearchVideo env st "a&b #c" (-3) 0).2.asked =
      st.asked ++ [("GET", "https://api.pexels.com/videos/search?query=a&b #c&per_page=-3&page=0")] := by
  have hp : ∀ (query : String) (a b : Int),
      Sprintf (PhotoAPI ++ "search?query=%s&per_page=%d&page=%d") [.str query, .int a, .int b]
      = "https://api.pexels.com/v1/search?query=" ++ query ++ "&per_page=" ++ toString a
        ++ "&page=" ++ toString b := by
    intro query a b
    rw [Sprintf_search _ _ _ _ (by decide), decimal_eq_toString, decimal_eq_toString]
    rfl
  have hv : ∀ (query : String) (a b : Int),
      Sprintf (VideoAPI ++ "search?query=%s&per_page=%d&page=%d") [.str query, .int a, .int b]
      = "https://api.pexels.com/videos/search?query=" ++ query ++ "&per_page=" ++ toString a
        ++ "&page=" ++ toString b := by
    intro query a b
    rw [Sprintf_search _ _ _ _ (by decide), decimal_eq_toString, decimal_eq_toString]
    rfl
  refine ⟨?_, ?_, ?_, ?_⟩
  · rw [SearchPhotos_eq_fetch, fetch_asked, hp]
  · rw [SearchVideo_eq_fetch, fetch_asked, hv]
  · rw [SearchPhotos_eq_fetch, fetch_asked, hp]
    rfl
  · rw [SearchVideo_eq_fetch, fetch_asked, hv]
    rfl

/-- C3 (the code at the failing inputs): when the page comes back with an
empty sequence, or with none, `GetRandomPhoto` and `GetRandomVideo` end in the
run-time fault of the index expression; no error value is returned. -/
theorem random_on_empty_page_faults :
    (GetRandomPhoto (Env.fixed emptyPageResponse 0 1234567) freshState).1
      = .fault "index out of range [0] with length 0" ∧
    (GetRandomPhoto (Env.fixed noItemsResponse 0 1234567) freshState).1
      = .fault "index out of range [0] with length 0" ∧
    (GetRandomVideo (Env.fixed emptyPageResponse 0 1234567) freshState).1
      = .fault "index out of range [0] with length 0" ∧
    (GetRandomVideo (Env.fixed noItemsResponse 0 1234567) freshState).1
      = .fault "index out of range [0] with length 0" ∧
    (∃ res, (CuratedPhotos (Env.fixed emptyPageResponse 0 1234567) freshState 1 567).1 = .ok res
      ∧ res.Photos = []) ∧
    (∃ res, (PopularVideo (Env.fixed noItemsResponse 0 1234567) freshState 1 567).1 = .ok res
      ∧ res.Videos = []) :=
  ⟨rfl, rfl, rfl, rfl, ⟨_, rfl, rfl⟩, ⟨_, rfl, rfl⟩⟩

/-- C9: the index `n` that `GetRandomPhoto` draws satisfies `0 <= n < 1000`; the
operation is the call `CuratedPhotos(1, n)` (same state afterwards, same error
when it fails, the request for `curated?per_page=1&page=n`), and when the page
holds at least one photo it returns the first one. Hence a second run with the
same index against the same server returns the same. `GetRandomVideo` does the
same through `PopularVideo(1, n)`. -/
theorem random_is_first_of_page (env : Env) (st : State) :
    Intn (env.Int31 env.now) 1000 < 1000 ∧
    ((GetRandomPhoto env st).2 = (CuratedPhotos env st 1 (Intn (env.Int31 env.now) 1000 : Nat)).2 ∧
      (∀ e, (CuratedPhotos env st 1 (Intn (env.Int31 env.now) 1000 : Nat)).1 = .error e →
        (GetRandomPhoto env st).1 = .error e) ∧
      (∀ res photo rest,
        (CuratedPhotos env st 1 (Intn (env.Int31 env.now) 1000 : Nat)).1 = .ok res →
        res.Photos = photo :: rest → (GetRandomPhoto env st).1 = .ok photo) ∧
      (GetRandomPhoto env st).2.sent =
        st.sent ++
          (if env.requestOk "GET" ("https://api.pexels.com/v1/curated?per_page=1&page="
              ++ decimal (Intn (env.Int31 env.now) 1000 : Nat)) = true then
            [{ Method := "GET"
               URL := "https://api.pexels.com/v1/curated?per_page=1&page="
                 ++ decimal (Intn (env.Int31 env.now) 1000 : Nat)
               Header := [("Authorization", st.client.Token)] }]
          else []) ∧
      (∀ env2 : Env, env2.requestOk = env.requestOk → env2.Do = env.Do →
        Intn (env2.Int31 env2.now) 1000 = Intn (env.Int31 env.now) 1000 →
        GetRandomPhoto env2 st = GetRandomPhoto env st)) ∧
    ((GetRandomVideo env st).2 = (PopularVideo env st 1 (Intn (env.Int31 env.now) 1000 : Nat)).2 ∧
      (∀ e, (PopularVideo env st 1 (Intn (env.Int31 env.now) 1000 : Nat)).1 = .error e →
        (GetRandomVideo env st).1 = .error e) ∧
      (∀ res video rest,
        (PopularVideo env st 1 (Intn (env.Int31 env.now) 1000 : Nat)).1 = .ok res →
        res.Videos = video :: rest → (GetRandomVideo env st).1 = .ok video) ∧
      (GetRandomVideo env st).2.sent =
        st.sent ++
          (if env.requestOk "GET" ("https://api.pexels.com/videos/popular?per_page=1&page="
              ++ decimal (Intn (env.Int31 env.now) 1000 : Nat)) = true then
            [{ Method := "GET"
               URL := "https://api.pexels.com/videos/popular?per_page=1&page="
                 ++ decimal (Intn (env.Int31 env.now) 1000 : Nat)
               Header := [("Authorization", st.client.Token)] }]
          else []) ∧
      (∀ env2 : Env, env2.requestOk = env.requestOk → env2.Do = env.Do →
        env2.floatInRange = env.floatInRange →
        Intn (env2.Int31 env2.now) 1000 = Intn (env.Int31 env.now) 1000 →
        GetRandomVideo env2 st = GetRandomVideo env st)) := by
  refine ⟨Nat.mod_lt _ (by decide), ⟨?_, ?_, ?_, ?_, ?_⟩, ⟨?_, ?_, ?_, ?_, ?_⟩⟩
  · rw [GetRandomPhoto_eq]
  · intro e he
    rw [GetRandomPhoto_eq]
    dsimp only
    rw [he]
  · intro res photo rest hres hph
    rw [GetRandomPhoto_eq]
    dsimp only
    rw [hres]
    dsimp only
    rw [hph]
    rfl
  · rw [GetRandomPhoto_eq]
    dsimp only
    rw [CuratedPhotos_eq_fetch, fetch_sent, curated_url]
  · intro env2 hReq hDo hn
    rw [GetRandomPhoto_eq, GetRandomPhoto_eq, hn, CuratedPhotos_eq_fetch, CuratedPhotos_eq_fetch,
      fetch_congr env env2 st _ _ _ hReq hDo]
  · rw [GetRandomVideo_eq]
  · intro e he
    rw [GetRandomVideo_eq]
    dsimp only
    rw [he]
  · intro res video rest hres hv
    rw [GetRandomVideo_eq]
    dsimp only
    rw [hres]
    dsimp only
    rw [hv]
    rfl
  · rw [GetRandomVideo_eq]
    dsimp only
    rw [PopularVideo_eq_fetch, fetch_sent, popular_url]
  · intro env2 hReq hDo hFl hn
    rw [GetRandomVideo_eq, GetRandomVideo_eq, hn, PopularVideo_eq_fetch, PopularVideo_eq_fetch,
      hFl, fetch_congr env env2 st _ _ _ hReq hDo]

/-- C9 (witness): with the generator drawing 1234567 the index is 567; on a
page of two photos `GetRandomPhoto` returns the first, and on a page of one
video `GetRandomVideo` returns it. -/
theorem random_is_first_of_page_witness :
    Intn ((Env.fixed twoPhotosResponse 0 1234567).Int31 (Env.fixed twoPhotosResponse 0 1234567).now)
      1000 = 567 ∧
    (GetRandomPhoto (Env.fixed twoPhotosResponse 0 1234567) freshState).1 = .ok { ID := 11 } ∧
    (GetRandomVideo (Env.fixed oneVideoResponse 0 1234567) freshState).1
      = .ok { ID := 21, Duration := ⟨"12.5"⟩ } :=
  ⟨by decide,
    (random_is_first_of_page (Env.fixed twoPhotosResponse 0 1234567) freshState).2.1.2.2.1
      { Page := 567, PerPage := 1, Photos := [{ ID := 11 }, { ID := 12 }] } { ID := 11 }
      [{ ID := 12 }] rfl rfl,
    (random_is_first_of_page (Env.fixed oneVideoResponse 0 1234567) freshState).2.2.2.2.1
      { Page := 567, PerPage := 1, Videos := [{ ID := 21, Duration := ⟨"12.5"⟩ }] }
      { ID := 21, Duration := ⟨"12.5"⟩ } [] rfl rfl⟩

/-- C6 (as stated, refuted): on the error body `{"status":404,"error":"Not Found"}`
`GetPhoto` returns a photo, the zero-valued one, and no decode error. -/
theorem error_body_counterexample :
    (GetPhoto (Env.fixed notFoundResponse 0 0) freshState 123).1 = .ok {} ∧
    (∀ e, (GetPhoto (Env.fixed notFoundResponse 0 0) freshState 123).1 ≠ .error e) :=
  ⟨rfl, fun e h => by cases h⟩

/-- C6 (amended): for every photo id, when the API answers `GetPhoto(id)` with a
valid quota header and a JSON object none of whose member names selects a field
of `Photo` (an error body such as `{"status":404,"error":"Not Found"}`),
`GetPhoto` returns the zero-valued `Photo` with a nil error, not a decode
error. -/
theorem error_body_gives_zero_photo (env : Env) (st : State) (id : Int) (res : Response)
    (n : Int) (members : List (String × JValue))
    (hReq : ∀ m u, env.requestOk m u = true)
    (hDo : ∀ req, env.Do req = .ok res)
    (hN : Atoi (res.Header.Get "X-Ratelimit-Remaining") = .ok n)
    (hBody : res.Body = some (.json (.obj members)))
    (hNone : ∀ kv ∈ members, ∀ tag ∈ Photo.tags, sameField tag kv.1 = false) :
    (GetPhoto env st id).1 = .ok {} := by
  rw [GetPhoto_eq_fetch, fetch_eq, if_pos (hReq _ _), hDo]
  dsimp only
  rw [hN]
  dsimp only
  rw [hBody]
  simp only [readAndDecode, ReadAll, Unmarshal, Photo.decode, decodeStruct]
  exact decodeMembers_of_skip _ _ _
    (fun kv hkv => Photo.setField_of_no_tag _ kv.1 kv.2 (hNone kv hkv))

/-- C6 (witness): `GetPhoto(123)` answered with the 404 error body. -/
theorem error_body_gives_zero_photo_witness :
    (∀ m u, (Env.fixed notFoundResponse 0 0).requestOk m u = true) ∧
    (∀ req, (Env.fixed notFoundResponse 0 0).Do req = .ok notFoundResponse) ∧
    Atoi (notFoundResponse.Header.Get "X-Ratelimit-Remaining") = .ok 100 ∧
    (∀ kv ∈ [("status", JValue.num "404"), ("error", JValue.str "Not Found")],
      ∀ tag ∈ Photo.tags, sameField tag kv.1 = false) ∧
    (GetPhoto (Env.fixed notFoundResponse 0 0) freshState 123).1 = .ok {} :=
  ⟨fun _ _ => rfl, fun _ => rfl, by decide, by decide,
    error_body_gives_zero_photo (Env.fixed notFoundResponse 0 0) freshState 123 notFoundResponse
      100 [("status", .num "404"), ("error", .str "Not Found")]
      (fun _ _ => rfl) (fun _ => rfl) (by decide) rfl (by decide)⟩

/-- C8 (as stated, refuted): `CuratedPhotos(1, 567)` succeeds on a page on which
the server put two photos and returns both: the length is 2, above perPage. -/
theorem curated_length_counterexample :
    (1 : Int) ≤ 1 ∧ (1 : Int) ≤ 567 ∧
    ∃ res, (CuratedPhotos (Env.fixed twoPhotosResponse 0 0) freshState 1 567).1 = .ok res ∧
      res.Photos.length = 2 ∧ ¬ (res.Photos.length : Int) ≤ 1 :=
  ⟨by decide, by decide, _, rfl, rfl, by decide⟩

/-- C8 (amended): for all perPage and page and every response for which
`CuratedPhotos(perPage, page)` succeeds, the result's photos sequence has
exactly as many elements as the `photos` array of the response body (the last
one, should the name occur more than once); the client does not compare it with
perPage, so the length is at most perPage only when the server keeps to it. -/
theorem curated_length_is_servers (env : Env) (st : State) (perPage page : Int) (res : Response)
    (front back : List (String × JValue)) (key : String) (items : List JValue)
    (result : CuratedResult)
    (hDo : ∀ req, env.Do req = .ok res)
    (hBody : res.Body = some (.json (.obj (front ++ (key, .arr items) :: back))))
    (hKey : sameField "photos" key = true)
    (hLast : ∀ kv ∈ back, sameField "photos" kv.1 = false)
    (hRun : (CuratedPhotos env st perPage page).1 = .ok result) :
    result.Photos.length = items.length := by
  rw [CuratedPhotos_eq_fetch, fetch_eq] at hRun
  split at hRun
  · rw [hDo] at hRun
    dsimp only at hRun
    split at hRun
    · cases hRun
    · dsimp only at hRun
      rw [hBody] at hRun
      simp only [readAndDecode, ReadAll, Unmarshal, CuratedResult.decode, decodeStruct] at hRun
      rw [decodeMembers_append] at hRun
      cases hf : decodeMembers CuratedResult.setField {} front with
      | error e => rw [hf] at hRun; cases hRun
      | ok r1 =>
        rw [hf] at hRun
        dsimp only at hRun
        rw [decodeMembers_cons] at hRun
        cases hs : CuratedResult.setField r1 key (.arr items) with
        | error e => rw [hs] at hRun; cases hRun
        | ok r2 =>
          rw [hs] at hRun
          dsimp only at hRun
          rw [CuratedResult.decodeMembers_other r2 result back hLast hRun]
          exact CuratedResult.setField_photos r1 r2 key items hKey hs
  · cases hRun

/-- C8 (witness): the page of two photos asked for with perPage 1. -/
theorem curated_length_is_servers_witness :
    (∀ req, (Env.fixed twoPhotosResponse 0 0).Do req = .ok twoPhotosResponse) ∧
    sameField "photos" "photos" = true ∧
    (∀ res, (CuratedPhotos (Env.fixed twoPhotosResponse 0 0) freshState 1 567).1 = .ok res →
      res.Photos.length = 2) :=
  ⟨fun _ => rfl, by decide, fun res hres =>
    curated_length_is_servers (Env.fixed twoPhotosResponse 0 0) freshState 1 567 twoPhotosResponse
      [("page", .num "567"), ("per_page", .num "1")] [] "photos"
      [.obj [("id", .num "11")], .obj [("id", .num "12")]] res
      (fun _ => rfl) rfl (by decide) (by simp) hres⟩

end Pexels
